import Mathlib

/-!
Shallow embedding of the Black-Scholes calculation engine of
`black-scholes-mcp` (`src/calculators/`), over the exact real numbers.

Conventions of the embedding:
* Python floats become real numbers; arithmetic is exact.  Literals such as
  `1e12`, `0.5`, `1e-10` denote the exact rationals the source writes.
* `raise` becomes `Except.error`; each distinct raise site gets its own
  structured constructor (the source's message strings are elided, the
  constructor records which field or computation the message names).
* Over the exact reals every computed value is a finite real number, so the
  `math.isfinite` guards of the source never fire in this model; the
  floating-point aspect of those guards is treated separately with an
  abstract float model (`FloatModel` below).
* `float('inf')` / `math.copysign(float('inf'), d)` in the defensive branches
  of gamma, speed and lambda are modelled by `(⊤ : EReal)` / `(⊥ : EReal)`.
-/

namespace BlackScholesMCP

noncomputable section

open Real

/-- One constructor per `raise ValueError` site of `validate_inputs` in
`src/calculators/black_scholes_common.py`, in source order.  The constructor
records the field named by the raised message (e.g. `S_too_large` stands for
"Spot price (S) is too large", `vol_nonpositive` for "Volatility (vol) must
be positive"). -/
inductive ValidationError
  | S_nonpositive
  | K_nonpositive
  | T_nonpositive
  | vol_nonpositive
  | S_too_large
  | K_too_large
  | T_too_large
  | vol_too_large
  | r_unusual
  | q_negative
  | q_too_large
  | bad_option_type
  deriving DecidableEq

/-- The Python exceptions the engine can raise, structurally. -/
inductive PyErr
  | validation (e : ValidationError)
  /-- `ValueError` in `calculate_d1_d2` when `T <= 0 or vol <= 0`. -/
  | valueErrorD1D2
  /-- `ZeroDivisionError` in `calculate_d1_d2` when `vol * sqrt(T) == 0`. -/
  | zeroDivisionD1D2
  /-- `ZeroDivisionError` from evaluating `S / K` in `calculate_d1_d2` when
  `K == 0` ("float division by zero"). -/
  | zeroDivisionSOverK
  /-- `ValueError` ("math domain error") from `math.log(S / K)` in
  `calculate_d1_d2` when the quotient is not positive. -/
  | valueErrorLogDomain
  /-- safeguard `ValueError` in the `else` branch of price/delta dispatch. -/
  | valueErrorBadType
  /-- `RuntimeError` from a `math.isfinite` guard ("non-finite result"). -/
  | runtimeNonFinite
  /-- Python `UnboundLocalError`: `calculate_theta_value` has no `else`
  branch, so an invalid option type past validation would leave `theta`
  unassigned. -/
  | unboundLocal
  /-- The vera tool's `except (ValueError, ZeroDivisionError, OverflowError)`
  handler re-raises as `RuntimeError`, wrapping the original error. -/
  | runtimeWrapped (e : PyErr)
  deriving DecidableEq

/-- `math.erf`, modelled exactly: the Gauss error function
`erf x = (2/√π) · ∫ t in 0..x, e^(−t²)`. -/
def erf (x : ℝ) : ℝ := (2 / Real.sqrt π) * ∫ t in (0:ℝ)..x, Real.exp (-t ^ 2)

/-- `norm_cdf` from `black_scholes_common.py`: `0.5 * (1 + erf(x / sqrt(2)))`. -/
def norm_cdf (x : ℝ) : ℝ := 0.5 * (1 + erf (x / Real.sqrt 2))

/-- `norm_pdf` from `black_scholes_common.py`:
`(1 / sqrt(2π)) * exp(-0.5 * x * x)`. -/
def norm_pdf (x : ℝ) : ℝ := (1 / Real.sqrt (2 * π)) * Real.exp (-0.5 * x * x)

/-- `validate_inputs` from `black_scholes_common.py`.  The function either
raises the first failing check's `ValueError` (`some e`) or returns `None`
(`none`).  The initial `if T <= 0 or vol <= 0 or S <= 0 or K <= 0: pass`
statement of the source has no effect and is omitted.  The check order is
the source's: the four lower-bound checks come before the magnitude checks. -/
def validate_inputs (S K T r q vol : ℝ) (option_type : String) :
    Option ValidationError :=
  if S ≤ 0 then some .S_nonpositive
  else if K ≤ 0 then some .K_nonpositive
  else if T ≤ 0 then some .T_nonpositive
  else if vol ≤ 0 then some .vol_nonpositive
  else if S > 1e12 then some .S_too_large
  else if K > 1e12 then some .K_too_large
  else if T > 100 then some .T_too_large
  else if vol > 5 then some .vol_too_large
  else if |r| > 1 then some .r_unusual
  else if q < 0 then some .q_negative
  else if q > 1 then some .q_too_large
  else if option_type ≠ "call" ∧ option_type ≠ "put" then some .bad_option_type
  else none

/-- `calculate_d1_d2` from `black_scholes_common.py`.  `denominator` is
inlined as `vol * Real.sqrt T`.  Evaluating `d1` can itself raise, in Python's
evaluation order: `S / K` raises `ZeroDivisionError` when `K == 0`, and
`math.log` raises `ValueError` ("math domain error") when the quotient is not
positive; both paths are modelled here, after the source's two explicit
checks. -/
def calculate_d1_d2 (S K T r q vol : ℝ) : Except PyErr (ℝ × ℝ) :=
  if T ≤ 0 ∨ vol ≤ 0 then .error .valueErrorD1D2
  else if vol * Real.sqrt T = 0 then .error .zeroDivisionD1D2
  else if K = 0 then .error .zeroDivisionSOverK
  else if S / K ≤ 0 then .error .valueErrorLogDomain
  else
    .ok ((Real.log (S / K) + (r - q + 0.5 * vol ^ 2) * T) / (vol * Real.sqrt T),
      (Real.log (S / K) + (r - q + 0.5 * vol ^ 2) * T) / (vol * Real.sqrt T)
        - vol * Real.sqrt T)

/-- The `d1` of `calculate_d1_d2` on the non-error path. -/
def d1_value (S K T r q vol : ℝ) : ℝ :=
  (Real.log (S / K) + (r - q + 0.5 * vol ^ 2) * T) / (vol * Real.sqrt T)

/-- The `d2` of `calculate_d1_d2` on the non-error path. -/
def d2_value (S K T r q vol : ℝ) : ℝ :=
  d1_value S K T r q vol - vol * Real.sqrt T

/-- `calculate_price_value` from `black_scholes_price.py`.  It does not call
`validate_inputs` (its docstring: "Input validation is expected to be done by
the caller").  Over exact reals the final `math.isfinite` guard always
passes, so it is not represented. -/
def calculate_price_value (S K T r q vol : ℝ) (option_type : String) :
    Except PyErr ℝ :=
  match calculate_d1_d2 S K T r q vol with
  | .error e => .error e
  | .ok (d1, d2) =>
    if option_type = "call" then
      .ok (S * Real.exp (-q * T) * norm_cdf d1
        - K * Real.exp (-r * T) * norm_cdf d2)
    else if option_type = "put" then
      .ok (K * Real.exp (-r * T) * norm_cdf (-d2)
        - S * Real.exp (-q * T) * norm_cdf (-d1))
    else .error .valueErrorBadType

/-- `calculate_delta_value` from `black_scholes_delta.py`.  Like the price it
performs no input validation; the `math.isfinite` guard always passes over
exact reals. -/
def calculate_delta_value (S K T r q vol : ℝ) (option_type : String) :
    Except PyErr ℝ :=
  match calculate_d1_d2 S K T r q vol with
  | .error e => .error e
  | .ok (d1, _) =>
    if option_type = "call" then
      .ok (Real.exp (-q * T) * norm_cdf d1)
    else if option_type = "put" then
      .ok (Real.exp (-q * T) * (norm_cdf d1 - 1))
    else .error .valueErrorBadType

/-- `calculate_theta_value` from `black_scholes_theta.py`.  Unlike price and
delta, it calls `validate_inputs` itself before computing.  The source has no
`else` branch after the call/put dispatch ("No else needed as validate_inputs
ensures option_type is valid"); reaching that point with another string would
raise Python's `UnboundLocalError` at the `return theta` line. -/
def calculate_theta_value (S K T r q vol : ℝ) (option_type : String) :
    Except PyErr ℝ :=
  match validate_inputs S K T r q vol option_type with
  | some e => .error (.validation e)
  | none =>
    match calculate_d1_d2 S K T r q vol with
    | .error e => .error e
    | .ok (d1, d2) =>
      if option_type = "call" then
        .ok (-(S * norm_pdf d1 * vol * Real.exp (-q * T)) / (2 * Real.sqrt T)
          + (-r * K * Real.exp (-r * T) * norm_cdf d2)
          + (q * S * Real.exp (-q * T) * norm_cdf d1))
      else if option_type = "put" then
        .ok (-(S * norm_pdf d1 * vol * Real.exp (-q * T)) / (2 * Real.sqrt T)
          + (r * K * Real.exp (-r * T) * norm_cdf (-d2))
          + (-q * S * Real.exp (-q * T) * norm_cdf (-d1)))
      else .error .unboundLocal

/-- `calculate_gamma_value` from `black_scholes_gamma.py`.  Validates with
`option_type="call"` ("Gamma is same for call and put"), then computes; the
defensive `if denominator == 0: return float('inf')` branch is modelled by
`(⊤ : EReal)`. -/
def calculate_gamma_value (S K T r q vol : ℝ) : Except PyErr EReal :=
  match validate_inputs S K T r q vol "call" with
  | some e => .error (.validation e)
  | none =>
    match calculate_d1_d2 S K T r q vol with
    | .error e => .error e
    | .ok (d1, _) =>
      if S * vol * Real.sqrt T = 0 then .ok ⊤
      else
        .ok ((Real.exp (-q * T) * norm_pdf d1 / (S * vol * Real.sqrt T) : ℝ) :
          EReal)

/-- `calculate_speed_value` from `black_scholes_speed.py`.  Validates with
`option_type="call"`, computes gamma as in `calculate_gamma_value` (with the
same defensive `float('inf')` branch), then
`factor = 1 + d1 / (S * vol * math.sqrt(T))` and
`speed = -gamma * factor / S`.  Note the source divides `d1` by
`S * vol * sqrt(T)` in `factor`. -/
def calculate_speed_value (S K T r q vol : ℝ) : Except PyErr EReal :=
  match validate_inputs S K T r q vol "call" with
  | some e => .error (.validation e)
  | none =>
    match calculate_d1_d2 S K T r q vol with
    | .error e => .error e
    | .ok (d1, _) =>
      if S * vol * Real.sqrt T = 0 then .ok ⊤
      else
        .ok ((-(Real.exp (-q * T) * norm_pdf d1 / (S * vol * Real.sqrt T))
          * (1 + d1 / (S * vol * Real.sqrt T)) / S : ℝ) : EReal)

/-- `calculate_vomma_value` from `black_scholes_vomma.py`.  Validates with the
given `option_type`, which the computed value does not use. -/
def calculate_vomma_value (S K T r q vol : ℝ) (option_type : String) :
    Except PyErr ℝ :=
  match validate_inputs S K T r q vol option_type with
  | some e => .error (.validation e)
  | none =>
    match calculate_d1_d2 S K T r q vol with
    | .error e => .error e
    | .ok (d1, d2) =>
      .ok (S * Real.exp (-q * T) * norm_pdf d1 * Real.sqrt T * (d1 * d2) / vol)

/-- `calculate_ultima_value` from `black_scholes_ultima.py`.  Validates with
the given `option_type`; the computation discards the kernel's `d2` and
recomputes `d2 = d1 - vol * sqrt_t` as the source does. -/
def calculate_ultima_value (S K T r q vol : ℝ) (option_type : String) :
    Except PyErr ℝ :=
  match validate_inputs S K T r q vol option_type with
  | some e => .error (.validation e)
  | none =>
    match calculate_d1_d2 S K T r q vol with
    | .error e => .error e
    | .ok (d1, _) =>
      .ok ((1 / vol)
        * (S * Real.exp (-q * T) * norm_pdf d1 * Real.sqrt T * d1
            * (d1 - vol * Real.sqrt T) / vol)
        * (d1 * (d1 - vol * Real.sqrt T) - d1 / vol - (d1 - vol * Real.sqrt T) / vol
            - 1 + 1 / (vol * vol)))

/-- `calculate_vera_value` from `black_scholes_vera.py`: validates with
`option_type="call"` and returns the call-vera
`-K*T*exp(-r*T)*norm_pdf(d2)*d1/(vol*sqrt(T))`. -/
def calculate_vera_value (S K T r q vol : ℝ) : Except PyErr ℝ :=
  match validate_inputs S K T r q vol "call" with
  | some e => .error (.validation e)
  | none =>
    match calculate_d1_d2 S K T r q vol with
    | .error e => .error e
    | .ok (d1, d2) =>
      .ok (-K * T * Real.exp (-r * T) * norm_pdf d2 * d1 / (vol * Real.sqrt T))

/-- Which exceptions the vera tool's
`except (ValueError, ZeroDivisionError, OverflowError)` clause catches.
`RuntimeError` (the non-finite guard) and `UnboundLocalError` are not
subclasses of those, so they would propagate unwrapped. -/
def veraHandlerCatches : PyErr → Bool
  | .validation _ => true
  | .valueErrorD1D2 => true
  | .zeroDivisionD1D2 => true
  | .zeroDivisionSOverK => true
  | .valueErrorLogDomain => true
  | .valueErrorBadType => true
  | .runtimeNonFinite => false
  | .unboundLocal => false
  | .runtimeWrapped _ => false

/-- The registered tool `calc_black_scholes_vera` from `black_scholes_vera.py`
(modulo the response-dict packaging, which carries the value unchanged): it
validates with the request's `type`, calls `calculate_vera_value`, negates the
result when `type == "put"`, and re-raises caught errors as `RuntimeError`. -/
def calc_black_scholes_vera (S K T r q vol : ℝ) (type : String) :
    Except PyErr ℝ :=
  match
    (match validate_inputs S K T r q vol type with
    | some e => .error (.validation e)
    | none =>
      match calculate_vera_value S K T r q vol with
      | .error e => .error e
      | .ok v => .ok (if type = "put" then -v else v) : Except PyErr ℝ)
  with
  | .ok v => .ok v
  | .error e => .error (if veraHandlerCatches e then .runtimeWrapped e else e)

/-- `calculate_lambda_value` from `black_scholes_lambda.py`: validates, then
composes `calculate_delta_value` and `calculate_price_value`; when
`abs(price) < 1e-10` it returns `math.copysign(float('inf'), delta)`,
modelled as `⊥` for `delta < 0` and `⊤` otherwise (a real delta has no
negative zero). -/
def calculate_lambda_value (S K T r q vol : ℝ) (option_type : String) :
    Except PyErr EReal :=
  match validate_inputs S K T r q vol option_type with
  | some e => .error (.validation e)
  | none =>
    match calculate_delta_value S K T r q vol option_type with
    | .error e => .error e
    | .ok delta =>
      match calculate_price_value S K T r q vol option_type with
      | .error e => .error e
      | .ok price =>
        if |price| < 1e-10 then
          .ok (if delta < 0 then (⊥ : EReal) else ⊤)
        else
          .ok ((delta * S / price : ℝ) : EReal)

/-- Modelled from the spec's words (§4.6): `gamma = e^(−qT)·n(d1)/(S·vol·√T)`,
for comparison with the source formulas. -/
def gamma_spec (S K T r q vol : ℝ) : ℝ :=
  Real.exp (-q * T) * norm_pdf (d1_value S K T r q vol) / (S * vol * Real.sqrt T)

/-- Modelled from the spec's words (§4.6):
`Speed = −gamma/S·(1 + d1/(vol√T))`, the claim C3 formula, for comparison
with the source's `calculate_speed_value`. -/
def speed_spec (S K T r q vol : ℝ) : ℝ :=
  -gamma_spec S K T r q vol / S
    * (1 + d1_value S K T r q vol / (vol * Real.sqrt T))

/-- An abstract model of Python float arithmetic, used to state the
`math.isfinite` guard property of `calculate_price_value` without committing
to a floating-point semantics: the guard's behaviour is a structural fact of
the source that holds for every interpretation of the arithmetic. -/
structure FloatModel (F : Type) where
  add : F → F → F
  sub : F → F → F
  mul : F → F → F
  neg : F → F
  div : F → F → F
  exp : F → F
  log : F → F
  sqrt : F → F
  erf : F → F
  ofRat : ℚ → F
  le : F → F → Bool
  beq : F → F → Bool
  isfinite : F → Bool

variable {F : Type}

/-- `norm_cdf` over the abstract float model. -/
def FloatModel.norm_cdf (M : FloatModel F) (x : F) : F :=
  M.mul (M.ofRat (1/2)) (M.add (M.ofRat 1) (M.erf (M.div x (M.sqrt (M.ofRat 2)))))

/-- `calculate_d1_d2` over the abstract float model (`vol**2` is
`vol * vol`). -/
def FloatModel.calculate_d1_d2 (M : FloatModel F) (S K T r q vol : F) :
    Except PyErr (F × F) :=
  if M.le T (M.ofRat 0) || M.le vol (M.ofRat 0) then .error .valueErrorD1D2
  else
    let denominator := M.mul vol (M.sqrt T)
    if M.beq denominator (M.ofRat 0) then .error .zeroDivisionD1D2
    else
      let d1 := M.div
        (M.add (M.log (M.div S K))
          (M.mul (M.add (M.sub r q) (M.mul (M.ofRat (1/2)) (M.mul vol vol))) T))
        denominator
      .ok (d1, M.sub d1 denominator)

/-- The price expression assigned to `price` in `calculate_price_value`
before the `isfinite` check, for a call or put (the function never reaches it
for other types). -/
def FloatModel.price_raw (M : FloatModel F) (S K T r q vol : F)
    (option_type : String) (d1 d2 : F) : F :=
  if option_type = "call" then
    M.sub (M.mul (M.mul S (M.exp (M.neg (M.mul q T)))) (M.norm_cdf d1))
      (M.mul (M.mul K (M.exp (M.neg (M.mul r T)))) (M.norm_cdf d2))
  else
    M.sub (M.mul (M.mul K (M.exp (M.neg (M.mul r T)))) (M.norm_cdf (M.neg d2)))
      (M.mul (M.mul S (M.exp (M.neg (M.mul q T)))) (M.norm_cdf (M.neg d1)))

/-- `calculate_price_value` over the abstract float model, with the source's
`if not math.isfinite(price): raise RuntimeError(...)` guard.  The call/put
dispatch is factored through `FloatModel.price_raw` (call branch first, so the
branch selection coincides with the source's `if/elif/else`). -/
def FloatModel.calculate_price_value (M : FloatModel F) (S K T r q vol : F)
    (option_type : String) : Except PyErr F :=
  match M.calculate_d1_d2 S K T r q vol with
  | .error e => .error e
  | .ok (d1, d2) =>
    if option_type = "call" ∨ option_type = "put" then
      if M.isfinite (M.price_raw S K T r q vol option_type d1 d2) then
        .ok (M.price_raw S K T r q vol option_type d1 d2)
      else .error .runtimeNonFinite
    else .error .valueErrorBadType

/-- A float model on `Unit` whose `isfinite` always holds; used to witness
the guard theorem on its success side. -/
def unitModelFin : FloatModel Unit where
  add _ _ := (); sub _ _ := (); mul _ _ := (); neg _ := (); div _ _ := ()
  exp _ := (); log _ := (); sqrt _ := (); erf _ := (); ofRat _ := ()
  le _ _ := false; beq _ _ := false; isfinite _ := true

/-- A float model on `Unit` whose `isfinite` always fails; used to witness
the guard theorem on its error side. -/
def unitModelInf : FloatModel Unit where
  add _ _ := (); sub _ _ := (); mul _ _ := (); neg _ := (); div _ _ := ()
  exp _ := (); log _ := (); sqrt _ := (); erf _ := (); ofRat _ := ()
  le _ _ := false; beq _ _ := false; isfinite _ := false

/-! ## Helper lemmas -/

/-- The error function is odd. -/
lemma erf_neg (x : ℝ) : erf (-x) = -erf x := by
  unfold erf
  have h1 := intervalIntegral.integral_comp_neg (a := 0) (b := x)
    (f := fun t => Real.exp (-t ^ 2))
  simp only [neg_sq, neg_zero] at h1
  have h2 : (∫ t in (0:ℝ)..(-x), Real.exp (-t ^ 2))
      = -∫ t in (-x)..(0:ℝ), Real.exp (-t ^ 2) :=
    intervalIntegral.integral_symm _ _
  rw [h2, ← h1]
  ring

/-- Reflection identity for the source's `norm_cdf`. -/
lemma norm_cdf_add_neg (x : ℝ) : norm_cdf x + norm_cdf (-x) = 1 := by
  unfold norm_cdf
  rw [neg_div, erf_neg]
  ring

/-- The source's `norm_pdf` is strictly positive. -/
lemma norm_pdf_pos (x : ℝ) : 0 < norm_pdf x := by
  unfold norm_pdf
  positivity

/-- Acceptance by `validate_inputs` yields all the domain bounds. -/
lemma validate_accepts {S K T r q vol : ℝ} {ot : String}
    (h : validate_inputs S K T r q vol ot = none) :
    0 < S ∧ 0 < K ∧ 0 < T ∧ 0 < vol ∧ S ≤ 1e12 ∧ K ≤ 1e12 ∧ T ≤ 100 ∧
      vol ≤ 5 ∧ |r| ≤ 1 ∧ 0 ≤ q ∧ q ≤ 1 ∧ (ot = "call" ∨ ot = "put") := by
  unfold validate_inputs at h
  by_cases h1 : S ≤ 0
  · rw [if_pos h1] at h; exact Option.noConfusion h
  rw [if_neg h1] at h
  by_cases h2 : K ≤ 0
  · rw [if_pos h2] at h; exact Option.noConfusion h
  rw [if_neg h2] at h
  by_cases h3 : T ≤ 0
  · rw [if_pos h3] at h; exact Option.noConfusion h
  rw [if_neg h3] at h
  by_cases h4 : vol ≤ 0
  · rw [if_pos h4] at h; exact Option.noConfusion h
  rw [if_neg h4] at h
  by_cases h5 : S > 1e12
  · rw [if_pos h5] at h; exact Option.noConfusion h
  rw [if_neg h5] at h
  by_cases h6 : K > 1e12
  · rw [if_pos h6] at h; exact Option.noConfusion h
  rw [if_neg h6] at h
  by_cases h7 : T > 100
  · rw [if_pos h7] at h; exact Option.noConfusion h
  rw [if_neg h7] at h
  by_cases h8 : vol > 5
  · rw [if_pos h8] at h; exact Option.noConfusion h
  rw [if_neg h8] at h
  by_cases h9 : |r| > 1
  · rw [if_pos h9] at h; exact Option.noConfusion h
  rw [if_neg h9] at h
  by_cases h10 : q < 0
  · rw [if_pos h10] at h; exact Option.noConfusion h
  rw [if_neg h10] at h
  by_cases h11 : q > 1
  · rw [if_pos h11] at h; exact Option.noConfusion h
  rw [if_neg h11] at h
  by_cases h12 : ot ≠ "call" ∧ ot ≠ "put"
  · rw [if_pos h12] at h; exact Option.noConfusion h
  push_neg at h1 h2 h3 h4 h5 h6 h7 h8 h9 h10 h11
  refine ⟨h1, h2, h3, h4, h5, h6, h7, h8, h9, h10, h11, ?_⟩
  by_cases hc : ot = "call"
  · exact Or.inl hc
  · exact Or.inr (by tauto)

/-- Conversely, the domain bounds force `validate_inputs` to accept. -/
lemma validate_accepts_of {S K T r q vol : ℝ} {ot : String}
    (hS : 0 < S) (hK : 0 < K) (hT : 0 < T) (hvol : 0 < vol)
    (hS2 : S ≤ 1e12) (hK2 : K ≤ 1e12) (hT2 : T ≤ 100) (hvol2 : vol ≤ 5)
    (hr : |r| ≤ 1) (hq : 0 ≤ q) (hq2 : q ≤ 1) (hot : ot = "call" ∨ ot = "put") :
    validate_inputs S K T r q vol ot = none := by
  unfold validate_inputs
  rw [if_neg (not_le.mpr hS), if_neg (not_le.mpr hK), if_neg (not_le.mpr hT),
    if_neg (not_le.mpr hvol), if_neg (not_lt.mpr hS2), if_neg (not_lt.mpr hK2),
    if_neg (not_lt.mpr hT2), if_neg (not_lt.mpr hvol2), if_neg (not_lt.mpr hr),
    if_neg (not_lt.mpr hq), if_neg (not_lt.mpr hq2), if_neg]
  rcases hot with rfl | rfl
  · exact fun h => h.1 rfl
  · exact fun h => h.2 rfl

/-- `validate_inputs` gives the same verdict for `"call"` and `"put"`. -/
lemma validate_call_put_eq (S K T r q vol : ℝ) :
    validate_inputs S K T r q vol "call" = validate_inputs S K T r q vol "put" := by
  unfold validate_inputs
  rw [if_neg (show ¬(("call" : String) ≠ "call" ∧ ("call" : String) ≠ "put") from
        by decide),
    if_neg (show ¬(("put" : String) ≠ "call" ∧ ("put" : String) ≠ "put") from
        by decide)]

/-- On positive `T` and `vol`, `calculate_d1_d2` succeeds with
`(d1_value, d2_value)`. -/
lemma calculate_d1_d2_eq (S K T r q vol : ℝ) (hS : 0 < S) (hK : 0 < K)
    (hT : 0 < T) (hvol : 0 < vol) :
    calculate_d1_d2 S K T r q vol =
      .ok (d1_value S K T r q vol, d2_value S K T r q vol) := by
  have hs : 0 < Real.sqrt T := Real.sqrt_pos.mpr hT
  have hden : vol * Real.sqrt T ≠ 0 := by positivity
  have hq : 0 < S / K := div_pos hS hK
  unfold calculate_d1_d2 d1_value d2_value
  rw [if_neg (by push_neg; exact ⟨hT, hvol⟩), if_neg hden, if_neg (ne_of_gt hK),
    if_neg (not_le.mpr hq)]
  rfl

/-! ## Claim theorems -/

/-- Claim C1: put-call parity of the price.  For every parameter set accepted
by `validate_inputs`, `calculate_price_value` with option type "call" minus
the value with option type "put" equals `S·e^(−qT) − K·e^(−rT)`. -/
theorem claim_C1_price_put_call_parity (S K T r q vol : ℝ)
    (h : validate_inputs S K T r q vol "call" = none) :
    ∃ c p : ℝ, calculate_price_value S K T r q vol "call" = .ok c ∧
      calculate_price_value S K T r q vol "put" = .ok p ∧
      c - p = S * Real.exp (-q * T) - K * Real.exp (-r * T) := by
  obtain ⟨hS, hK, hT, hvol, -⟩ := validate_accepts h
  have hd := calculate_d1_d2_eq S K T r q vol hS hK hT hvol
  have hc : calculate_price_value S K T r q vol "call" =
      .ok (S * Real.exp (-q * T) * norm_cdf (d1_value S K T r q vol)
        - K * Real.exp (-r * T) * norm_cdf (d2_value S K T r q vol)) := by
    unfold calculate_price_value
    rw [hd]
    rfl
  have hp : calculate_price_value S K T r q vol "put" =
      .ok (K * Real.exp (-r * T) * norm_cdf (-d2_value S K T r q vol)
        - S * Real.exp (-q * T) * norm_cdf (-d1_value S K T r q vol)) := by
    unfold calculate_price_value
    rw [hd]
    rfl
  refine ⟨_, _, hc, hp, ?_⟩
  have h1 := norm_cdf_add_neg (d1_value S K T r q vol)
  have h2 := norm_cdf_add_neg (d2_value S K T r q vol)
  linear_combination (S * Real.exp (-q * T)) * h1 - (K * Real.exp (-r * T)) * h2

/-- Witness for C1 at `S=K=100, T=1, r=q=0, vol=0.2`. -/
theorem claim_C1_witness :
    ∃ c p : ℝ, calculate_price_value 100 100 1 0 0 (1/5) "call" = .ok c ∧
      calculate_price_value 100 100 1 0 0 (1/5) "put" = .ok p ∧
      c - p = 100 * Real.exp (-0 * 1) - 100 * Real.exp (-0 * 1) :=
  claim_C1_price_put_call_parity 100 100 1 0 0 (1/5)
    (validate_accepts_of (by norm_num) (by norm_num) (by norm_num) (by norm_num)
      (by norm_num) (by norm_num) (by norm_num) (by norm_num) (by simp)
      le_rfl (by norm_num) (Or.inl rfl))

/-- Claim C2, counterexample: `vol = 6` violates the validator's `vol ≤ 5`
rule, yet `calculate_price_value` and `calculate_delta_value` both return a
value instead of failing with the validation error — they do not run the
validator. -/
theorem claim_C2_counterexample :
    validate_inputs 1 1 1 0 0 6 "call" = some ValidationError.vol_too_large ∧
      (∃ p, calculate_price_value 1 1 1 0 0 6 "call" = .ok p) ∧
      (∃ d, calculate_delta_value 1 1 1 0 0 6 "call" = .ok d) := by
  have hd := calculate_d1_d2_eq 1 1 1 0 0 6 (by norm_num) (by norm_num) (by norm_num) (by norm_num)
  refine ⟨?_, ?_, ?_⟩
  · unfold validate_inputs
    norm_num
  · exact ⟨_, by unfold calculate_price_value; rw [hd]; rfl⟩
  · exact ⟨_, by unfold calculate_delta_value; rw [hd]; rfl⟩

/-- Claim C2, amended: among the engine calculators, `calculate_theta_value`
does run the validator first and fails with its error on any invalid input,
but `calculate_price_value` and `calculate_delta_value` do not validate:
whenever `S`, `K`, `T` and `vol` are positive they compute and return a value
even if the remaining domain constraints (e.g. `vol > 5`) are violated, and
for `S ≤ 0` (with `K`, `T`, `vol` positive) the price fails with the math
domain `ValueError` from `math.log(S/K)` — not a validation error. -/
theorem claim_C2_amended :
    (∀ (S K T r q vol : ℝ) (ot : String) (e : ValidationError),
      validate_inputs S K T r q vol ot = some e →
        calculate_theta_value S K T r q vol ot = .error (.validation e)) ∧
    (∀ S K T r q vol : ℝ, 0 < S → 0 < K → 0 < T → 0 < vol →
      (∃ p, calculate_price_value S K T r q vol "call" = .ok p) ∧
      (∃ d, calculate_delta_value S K T r q vol "call" = .ok d)) ∧
    (∀ S K T r q vol : ℝ, S ≤ 0 → 0 < K → 0 < T → 0 < vol →
      calculate_price_value S K T r q vol "call"
        = .error .valueErrorLogDomain) := by
  refine ⟨?_, ?_, ?_⟩
  · intro S K T r q vol ot e h
    unfold calculate_theta_value
    rw [h]
  · intro S K T r q vol hS hK hT hvol
    have hd := calculate_d1_d2_eq S K T r q vol hS hK hT hvol
    exact ⟨⟨_, by unfold calculate_price_value; rw [hd]; rfl⟩,
      ⟨_, by unfold calculate_delta_value; rw [hd]; rfl⟩⟩
  · intro S K T r q vol hS hK hT hvol
    have hsq : 0 < Real.sqrt T := Real.sqrt_pos.mpr hT
    have hden : vol * Real.sqrt T ≠ 0 := by positivity
    have hd : calculate_d1_d2 S K T r q vol = .error .valueErrorLogDomain := by
      unfold calculate_d1_d2
      rw [if_neg (by push_neg; exact ⟨hT, hvol⟩), if_neg hden,
        if_neg (ne_of_gt hK), if_pos (div_nonpos_iff.mpr (Or.inr ⟨hS, hK.le⟩))]
    unfold calculate_price_value
    rw [hd]

/-- Witness for the amended C2: theta fails on `vol = 0` with the validator's
error, price and delta return values on invalid `vol = 6`, and price fails
with the math-domain error at `S = -1`. -/
theorem claim_C2_witness :
    calculate_theta_value 1 1 1 0 0 0 "call"
        = .error (.validation .vol_nonpositive) ∧
      ((∃ p, calculate_price_value 1 1 1 0 0 6 "call" = .ok p) ∧
       (∃ d, calculate_delta_value 1 1 1 0 0 6 "call" = .ok d)) ∧
      calculate_price_value (-1) 1 1 0 0 6 "call"
        = .error .valueErrorLogDomain :=
  ⟨claim_C2_amended.1 1 1 1 0 0 0 "call" .vol_nonpositive
      (by unfold validate_inputs; norm_num),
    claim_C2_amended.2.1 1 1 1 0 0 6 (by norm_num) (by norm_num) (by norm_num)
      (by norm_num),
    claim_C2_amended.2.2 (-1) 1 1 0 0 6 (by norm_num) (by norm_num) (by norm_num)
      (by norm_num)⟩

/-- Claim C4, counterexample: for `S = 2e12 > 1e12` and `vol = 0 ≤ 0`
simultaneously, `validate_inputs` raises the volatility error, not the
spot-price error — the source checks all four lower bounds before any
magnitude bound, unlike the spec's per-field rule order. -/
theorem claim_C4_counterexample :
    validate_inputs 2e12 1 1 0 0 0 "call" = some ValidationError.vol_nonpositive ∧
      validate_inputs 2e12 1 1 0 0 0 "call" ≠ some ValidationError.S_too_large := by
  have h : validate_inputs 2e12 1 1 0 0 0 "call"
      = some ValidationError.vol_nonpositive := by
    unfold validate_inputs
    norm_num
  exact ⟨h, by rw [h]; simp⟩

/-- Claim C4, amended: `validate_inputs` reports at most one error per call,
the first failing check in the source's order, which places the four
lower-bound checks (`S ≤ 0`, `K ≤ 0`, `T ≤ 0`, `vol ≤ 0`) before every
magnitude check; hence whenever `S`, `K`, `T` pass their lower bounds and
`vol ≤ 0`, the error names `vol` — even if `S > 1e12`. -/
theorem claim_C4_amended (S K T r q vol : ℝ) (ot : String)
    (hS : 0 < S) (hK : 0 < K) (hT : 0 < T) (hvol : vol ≤ 0) :
    validate_inputs S K T r q vol ot = some ValidationError.vol_nonpositive := by
  unfold validate_inputs
  rw [if_neg (not_le.mpr hS), if_neg (not_le.mpr hK), if_neg (not_le.mpr hT),
    if_pos hvol]

/-- Witness for the amended C4. -/
theorem claim_C4_witness :
    validate_inputs 3 1 1 0 0 (-1) "put" = some ValidationError.vol_nonpositive :=
  claim_C4_amended 3 1 1 0 0 (-1) "put" (by norm_num) (by norm_num) (by norm_num)
    (by norm_num)

/-- Claim C3, counterexample: at `S=K=2, T=1, r=1/2, q=0, vol=1` (accepted by
the validator, with `d1 = 1`), `calculate_speed_value` returns
`−gamma·(1 + d1/(S·vol·√T))/S = −(3/8)·n(1)/2·...`, which differs from the
claimed `−gamma/S·(1 + d1/(vol·√T))` (`speed_spec`): the source divides the
inner `d1` term by `S·vol·√T`, not `vol·√T`. -/
theorem claim_C3_counterexample :
    ∃ s : ℝ, calculate_speed_value 2 2 1 (1/2) 0 1 = .ok (s : EReal) ∧
      s ≠ speed_spec 2 2 1 (1/2) 0 1 := by
  have hval : validate_inputs 2 2 1 (1/2) 0 1 "call" = none :=
    validate_accepts_of (by norm_num) (by norm_num) (by norm_num) (by norm_num)
      (by norm_num) (by norm_num) (by norm_num) (by norm_num)
      (by rw [abs_le]; constructor <;> norm_num) le_rfl (by norm_num)
      (Or.inl rfl)
  have hd := calculate_d1_d2_eq 2 2 1 (1/2) 0 1 (by norm_num) (by norm_num) (by norm_num) (by norm_num)
  have hden : (2 : ℝ) * 1 * Real.sqrt 1 ≠ 0 := by
    rw [Real.sqrt_one]; norm_num
  have hs : calculate_speed_value 2 2 1 (1/2) 0 1 =
      (if (2 : ℝ) * 1 * Real.sqrt 1 = 0 then Except.ok (⊤ : EReal)
      else .ok ((-(Real.exp (-0 * 1) * norm_pdf (d1_value 2 2 1 (1/2) 0 1)
          / (2 * 1 * Real.sqrt 1))
        * (1 + d1_value 2 2 1 (1/2) 0 1 / (2 * 1 * Real.sqrt 1)) / 2 : ℝ) :
          EReal)) := by
    unfold calculate_speed_value
    rw [hval, hd]
  rw [if_neg hden] at hs
  refine ⟨_, hs, ?_⟩
  have hd1 : d1_value 2 2 1 (1/2) 0 1 = 1 := by
    unfold d1_value
    rw [show (2:ℝ)/2 = 1 by norm_num, Real.log_one, Real.sqrt_one]
    norm_num
  unfold speed_spec gamma_spec
  rw [hd1, Real.sqrt_one]
  have hn := norm_pdf_pos 1
  intro heq
  rw [show (-0 : ℝ) * 1 = 0 by norm_num, Real.exp_zero] at heq
  nlinarith [heq, hn]

/-- Claim C3, amended: for every parameter set accepted by the validator,
`calculate_speed_value` returns
`−gamma·(1 + d1/(S·vol·√T))/S` with `gamma = e^(−qT)·n(d1)/(S·vol·√T)` —
the inner `d1` is divided by `S·vol·√T` (as the source computes `factor`),
not by `vol·√T`. -/
theorem claim_C3_amended (S K T r q vol : ℝ)
    (h : validate_inputs S K T r q vol "call" = none) :
    calculate_speed_value S K T r q vol =
      .ok ((-(Real.exp (-q * T) * norm_pdf (d1_value S K T r q vol)
          / (S * vol * Real.sqrt T))
        * (1 + d1_value S K T r q vol / (S * vol * Real.sqrt T)) / S : ℝ) :
          EReal) := by
  obtain ⟨hS, hK, hT, hvol, -⟩ := validate_accepts h
  have hd := calculate_d1_d2_eq S K T r q vol hS hK hT hvol
  have hsq : 0 < Real.sqrt T := Real.sqrt_pos.mpr hT
  have hden : S * vol * Real.sqrt T ≠ 0 := by positivity
  have hs : calculate_speed_value S K T r q vol =
      (if S * vol * Real.sqrt T = 0 then Except.ok (⊤ : EReal)
      else .ok ((-(Real.exp (-q * T) * norm_pdf (d1_value S K T r q vol)
          / (S * vol * Real.sqrt T))
        * (1 + d1_value S K T r q vol / (S * vol * Real.sqrt T)) / S : ℝ) :
          EReal)) := by
    unfold calculate_speed_value
    rw [h, hd]
  rw [if_neg hden] at hs
  exact hs

/-- Witness for the amended C3 at `S=K=100, T=1, r=q=0, vol=0.2`. -/
theorem claim_C3_witness :
    calculate_speed_value 100 100 1 0 0 (1/5) =
      .ok ((-(Real.exp (-0 * 1) * norm_pdf (d1_value 100 100 1 0 0 (1/5))
          / (100 * (1/5) * Real.sqrt 1))
        * (1 + d1_value 100 100 1 0 0 (1/5) / (100 * (1/5) * Real.sqrt 1)) / 100
          : ℝ) : EReal) :=
  claim_C3_amended 100 100 1 0 0 (1/5)
    (validate_accepts_of (by norm_num) (by norm_num) (by norm_num) (by norm_num)
      (by norm_num) (by norm_num) (by norm_num) (by norm_num) (by simp)
      le_rfl (by norm_num) (Or.inl rfl))

/-- Claim C5: the `math.isfinite` guard of `calculate_price_value`, stated
over every interpretation of float arithmetic: (i) any returned price passes
the `isfinite` check, and (ii) whenever the computed price expression is
non-finite (for a valid option type past the kernel), the function fails with
the `RuntimeError` ("non-finite result") instead of returning it. -/
theorem claim_C5_price_isfinite_guard :
    ∀ (F : Type) (M : FloatModel F) (S K T r q vol : F) (ot : String),
      (∀ p, M.calculate_price_value S K T r q vol ot = .ok p →
        M.isfinite p = true) ∧
      (∀ d1 d2, M.calculate_d1_d2 S K T r q vol = .ok (d1, d2) →
        (ot = "call" ∨ ot = "put") →
        M.isfinite (M.price_raw S K T r q vol ot d1 d2) = false →
        M.calculate_price_value S K T r q vol ot = .error .runtimeNonFinite) := by
  intro F M S K T r q vol ot
  constructor
  · intro p hp
    unfold FloatModel.calculate_price_value at hp
    cases hd : M.calculate_d1_d2 S K T r q vol with
    | error e => rw [hd] at hp; exact Except.noConfusion hp
    | ok x =>
      obtain ⟨d1, d2⟩ := x
      rw [hd] at hp
      replace hp : (if ot = "call" ∨ ot = "put" then
          if M.isfinite (M.price_raw S K T r q vol ot d1 d2) = true then
            Except.ok (M.price_raw S K T r q vol ot d1 d2)
          else Except.error PyErr.runtimeNonFinite
        else Except.error PyErr.valueErrorBadType) = Except.ok p := hp
      by_cases hot : ot = "call" ∨ ot = "put"
      · rw [if_pos hot] at hp
        by_cases hfin : M.isfinite (M.price_raw S K T r q vol ot d1 d2) = true
        · rw [if_pos hfin] at hp
          injection hp with hp
          rw [← hp]
          exact hfin
        · rw [if_neg hfin] at hp
          exact Except.noConfusion hp
      · rw [if_neg hot] at hp
        exact Except.noConfusion hp
  · intro d1 d2 hd hot hfin
    unfold FloatModel.calculate_price_value
    rw [hd]
    show (if ot = "call" ∨ ot = "put" then
        if M.isfinite (M.price_raw S K T r q vol ot d1 d2) = true then
          Except.ok (M.price_raw S K T r q vol ot d1 d2)
        else Except.error PyErr.runtimeNonFinite
      else Except.error PyErr.valueErrorBadType) = .error .runtimeNonFinite
    rw [if_pos hot, if_neg (by rw [hfin]; simp)]

/-- Witness for C5: a model whose `isfinite` always holds returns a value
passing the check, and a model whose `isfinite` always fails yields the
`RuntimeError`. -/
theorem claim_C5_witness :
    unitModelFin.isfinite () = true ∧
      unitModelInf.calculate_price_value () () () () () () "call"
        = .error .runtimeNonFinite :=
  ⟨(claim_C5_price_isfinite_guard Unit unitModelFin () () () () () () "call").1
      () rfl,
    (claim_C5_price_isfinite_guard Unit unitModelInf () () () () () () "call").2
      () () rfl (Or.inl rfl) rfl⟩

/-- Claim C6: for every accepted parameter set, `calculate_lambda_value`
succeeds, returning `(Delta·S)/Price` when `|Price| ≥ 1e-10` and a signed
infinity carrying Delta's sign when `|Price| < 1e-10`, where Delta and Price
are the values of `calculate_delta_value` and `calculate_price_value`. -/
theorem claim_C6_lambda (S K T r q vol : ℝ) (ot : String)
    (h : validate_inputs S K T r q vol ot = none) :
    ∃ dl p : ℝ, calculate_delta_value S K T r q vol ot = .ok dl ∧
      calculate_price_value S K T r q vol ot = .ok p ∧
      (1e-10 ≤ |p| →
        calculate_lambda_value S K T r q vol ot = .ok ((dl * S / p : ℝ) : EReal)) ∧
      (|p| < 1e-10 →
        calculate_lambda_value S K T r q vol ot =
          .ok (if dl < 0 then (⊥ : EReal) else ⊤)) := by
  obtain ⟨hS, hK, hT, hvol, -, -, -, -, -, -, -, hot⟩ := validate_accepts h
  have hd := calculate_d1_d2_eq S K T r q vol hS hK hT hvol
  have hboth : ∃ dl p : ℝ, calculate_delta_value S K T r q vol ot = .ok dl ∧
      calculate_price_value S K T r q vol ot = .ok p := by
    rcases hot with rfl | rfl
    · exact ⟨_, _, by unfold calculate_delta_value; rw [hd]; rfl,
        by unfold calculate_price_value; rw [hd]; rfl⟩
    · exact ⟨_, _, by unfold calculate_delta_value; rw [hd]; rfl,
        by unfold calculate_price_value; rw [hd]; rfl⟩
  obtain ⟨dl, p, hdl, hp⟩ := hboth
  have hl : calculate_lambda_value S K T r q vol ot =
      (if |p| < 1e-10 then Except.ok (if dl < 0 then (⊥ : EReal) else ⊤)
      else .ok ((dl * S / p : ℝ) : EReal)) := by
    unfold calculate_lambda_value
    rw [h, hdl, hp]
  refine ⟨dl, p, hdl, hp, ?_, ?_⟩
  · intro h10
    rw [hl, if_neg (not_lt.mpr h10)]
  · intro h10
    rw [hl, if_pos h10]

/-- Witness for C6 at `S=K=100, T=1, r=q=0, vol=0.2`. -/
theorem claim_C6_witness :
    ∃ dl p : ℝ, calculate_delta_value 100 100 1 0 0 (1/5) "call" = .ok dl ∧
      calculate_price_value 100 100 1 0 0 (1/5) "call" = .ok p ∧
      (1e-10 ≤ |p| →
        calculate_lambda_value 100 100 1 0 0 (1/5) "call"
          = .ok ((dl * 100 / p : ℝ) : EReal)) ∧
      (|p| < 1e-10 →
        calculate_lambda_value 100 100 1 0 0 (1/5) "call"
          = .ok (if dl < 0 then (⊥ : EReal) else ⊤)) :=
  claim_C6_lambda 100 100 1 0 0 (1/5) "call"
    (validate_accepts_of (by norm_num) (by norm_num) (by norm_num) (by norm_num)
      (by norm_num) (by norm_num) (by norm_num) (by norm_num) (by simp)
      le_rfl (by norm_num) (Or.inl rfl))

/-- Claim C7: `calculate_vomma_value` gives identical results for option
types "call" and "put" on every accepted parameter set. -/
theorem claim_C7_vomma_type_independent (S K T r q vol : ℝ)
    (h : validate_inputs S K T r q vol "call" = none) :
    calculate_vomma_value S K T r q vol "call"
      = calculate_vomma_value S K T r q vol "put" := by
  have hput : validate_inputs S K T r q vol "put" = none := by
    rw [← validate_call_put_eq]; exact h
  unfold calculate_vomma_value
  rw [h, hput]

/-- Witness for C7. -/
theorem claim_C7_witness :
    calculate_vomma_value 100 100 1 0 0 (1/5) "call"
      = calculate_vomma_value 100 100 1 0 0 (1/5) "put" :=
  claim_C7_vomma_type_independent 100 100 1 0 0 (1/5)
    (validate_accepts_of (by norm_num) (by norm_num) (by norm_num) (by norm_num)
      (by norm_num) (by norm_num) (by norm_num) (by norm_num) (by simp)
      le_rfl (by norm_num) (Or.inl rfl))

/-- Claim C8: for every accepted parameter set, the vera tool's result for a
put is the negation of the call formula
`−K·T·e^(−rT)·n(d2)·d1/(vol·√T)` at the kernel's `(d1, d2)`. -/
theorem claim_C8_vera_put_negates_call (S K T r q vol : ℝ)
    (h : validate_inputs S K T r q vol "put" = none) :
    ∃ d1 d2 : ℝ, calculate_d1_d2 S K T r q vol = .ok (d1, d2) ∧
      calc_black_scholes_vera S K T r q vol "put" =
        .ok (-(-K * T * Real.exp (-r * T) * norm_pdf d2 * d1
          / (vol * Real.sqrt T))) := by
  obtain ⟨hS, hK, hT, hvol, -⟩ := validate_accepts h
  have hcall : validate_inputs S K T r q vol "call" = none := by
    rw [validate_call_put_eq]; exact h
  have hd := calculate_d1_d2_eq S K T r q vol hS hK hT hvol
  refine ⟨_, _, hd, ?_⟩
  unfold calc_black_scholes_vera calculate_vera_value
  rw [h, hcall, hd]
  rfl

/-- Witness for C8. -/
theorem claim_C8_witness :
    ∃ d1 d2 : ℝ, calculate_d1_d2 100 100 1 0 0 (1/5) = .ok (d1, d2) ∧
      calc_black_scholes_vera 100 100 1 0 0 (1/5) "put" =
        .ok (-(-100 * 1 * Real.exp (-0 * 1) * norm_pdf d2 * d1
          / ((1/5) * Real.sqrt 1))) :=
  claim_C8_vera_put_negates_call 100 100 1 0 0 (1/5)
    (validate_accepts_of (by norm_num) (by norm_num) (by norm_num) (by norm_num)
      (by norm_num) (by norm_num) (by norm_num) (by norm_num) (by simp)
      le_rfl (by norm_num) (Or.inr rfl))

/-- Claim C9, counterexample (negation of the claim): there is no accepted
parameter set on which `calculate_ultima_value` distinguishes "call" from
"put" — the computation never uses the option type after validation, and
validation treats both strings alike. -/
theorem claim_C9_counterexample :
    ¬ ∃ S K T r q vol : ℝ, validate_inputs S K T r q vol "call" = none ∧
      calculate_ultima_value S K T r q vol "call"
        ≠ calculate_ultima_value S K T r q vol "put" := by
  rintro ⟨S, K, T, r, q, vol, -, hne⟩
  apply hne
  unfold calculate_ultima_value
  rw [validate_call_put_eq]

/-- Claim C9, amended: Ultima is type-independent — for every parameter set
(accepted or not), the "call" and "put" results of `calculate_ultima_value`
coincide. -/
theorem claim_C9_amended (S K T r q vol : ℝ) :
    calculate_ultima_value S K T r q vol "call"
      = calculate_ultima_value S K T r q vol "put" := by
  unfold calculate_ultima_value
  rw [validate_call_put_eq]

/-- Claim C10: for accepted inputs the defensive `float('inf')` branches of
`calculate_gamma_value` and `calculate_speed_value` are unreachable — both
return a (finite) real value, never an infinity. -/
theorem claim_C10_gamma_speed_finite (S K T r q vol : ℝ)
    (h : validate_inputs S K T r q vol "call" = none) :
    (∃ g : ℝ, calculate_gamma_value S K T r q vol = .ok (g : EReal)) ∧
    (∃ s : ℝ, calculate_speed_value S K T r q vol = .ok (s : EReal)) := by
  obtain ⟨hS, hK, hT, hvol, -⟩ := validate_accepts h
  have hd := calculate_d1_d2_eq S K T r q vol hS hK hT hvol
  have hsq : 0 < Real.sqrt T := Real.sqrt_pos.mpr hT
  have hden : S * vol * Real.sqrt T ≠ 0 := by positivity
  constructor
  · have hg : calculate_gamma_value S K T r q vol =
        (if S * vol * Real.sqrt T = 0 then Except.ok (⊤ : EReal)
        else .ok ((Real.exp (-q * T) * norm_pdf (d1_value S K T r q vol)
          / (S * vol * Real.sqrt T) : ℝ) : EReal)) := by
      unfold calculate_gamma_value
      rw [h, hd]
    rw [if_neg hden] at hg
    exact ⟨_, hg⟩
  · have hs : calculate_speed_value S K T r q vol =
        (if S * vol * Real.sqrt T = 0 then Except.ok (⊤ : EReal)
        else .ok ((-(Real.exp (-q * T) * norm_pdf (d1_value S K T r q vol)
            / (S * vol * Real.sqrt T))
          * (1 + d1_value S K T r q vol / (S * vol * Real.sqrt T)) / S : ℝ) :
            EReal)) := by
      unfold calculate_speed_value
      rw [h, hd]
    rw [if_neg hden] at hs
    exact ⟨_, hs⟩

/-- Witness for C10. -/
theorem claim_C10_witness :
    (∃ g : ℝ, calculate_gamma_value 100 100 1 0 0 (1/5) = .ok (g : EReal)) ∧
    (∃ s : ℝ, calculate_speed_value 100 100 1 0 0 (1/5) = .ok (s : EReal)) :=
  claim_C10_gamma_speed_finite 100 100 1 0 0 (1/5)
    (validate_accepts_of (by norm_num) (by norm_num) (by norm_num) (by norm_num)
      (by norm_num) (by norm_num) (by norm_num) (by norm_num) (by simp)
      le_rfl (by norm_num) (Or.inl rfl))

end

end BlackScholesMCP
